import Mathlib

/-!
Verification of the compatibility resolver and dispatcher of `gom` (src/main.go).

The embedding models:
* the semantic-version comparison of the hashicorp go-version library as used
  by `checkVendoringSupport` (dotted numeric segments, compared numerically
  with zero padding; `go version` reports exactly this shape),
* `goversion`, `checkVendoringSupport`, `init`, `vendorSrc` and the argument
  vectors built by the dispatch switch of `main`,
* process aborts (a Go `panic` versus the `gom: `-prefixed `os.Exit(1)` path
  of `main`).

Environment access (`os.Getenv`) is passed in as an explicit function
`String → String` returning `""` for unset variables, exactly as the Go
function `os.Getenv` does.
-/

/-- Whether every remaining segment is zero (padding of the shorter version
with zeros makes such a tail comparison-neutral). -/
def allZero : List Nat → Bool
  | [] => true
  | y :: ys => y = 0 && allZero ys

/-- Segment-wise numeric comparison of two version segment lists, the shorter
list padded with zeros, as `Compare` of the hashicorp go-version library
performs it for plain dotted numeric versions. -/
def cmpSegments : List Nat → List Nat → Ordering
  | [], ys => if allZero ys then .eq else .lt
  | x :: xs, [] => if 0 < x then .gt else cmpSegments xs []
  | x :: xs, y :: ys =>
    if x < y then .lt else if y < x then .gt else cmpSegments xs ys

/-- Model of `Version.LessThan` of the go-version library: the comparison came out
smaller. -/
def lessThan (a b : List Nat) : Bool :=
  match cmpSegments a b with
  | .lt => true
  | _ => false

/-- Model of `Version.Equal` of the go-version library: the comparison came out equal. -/
def equal (a b : List Nat) : Bool :=
  match cmpSegments a b with
  | .eq => true
  | _ => false

/-- Model of `Version.GreaterThan` of the go-version library: the comparison came out
greater. -/
def greaterThan (a b : List Nat) : Bool :=
  match cmpSegments a b with
  | .gt => true
  | _ => false

/-- Splits a character list at every dot, keeping empty segments, as
`strings.Split(s, ".")` does. -/
def splitOnDot (cs : List Char) : List (List Char) :=
  match cs with
  | [] => [[]]
  | c :: rest =>
    let r := splitOnDot rest
    if c = '.' then [] :: r
    else
      match r with
      | [] => [[c]]
      | seg :: segs => (c :: seg) :: segs

/-- Decimal value of a digit run, `none` on the first non-digit. -/
def digitsToNat (acc : Nat) : List Char → Option Nat
  | [] => some acc
  | c :: rest =>
    if c.isDigit then digitsToNat (acc * 10 + (c.toNat - 48)) rest else none

/-- A version segment must be a non-empty run of decimal digits. -/
def segToNat (cs : List Char) : Option Nat :=
  match cs with
  | [] => none
  | _ => digitsToNat 0 cs

/-- Model of `version.NewVersion` of the go-version library, restricted to the plain
dotted numeric versions the Go toolchain self-reports (no prerelease or
metadata suffix): every dot-separated segment must be a non-empty digit run,
otherwise parsing fails. -/
def parseVersion (s : String) : Option (List Nat) :=
  match s.data with
  | [] => none
  | cs => (splitOnDot cs).mapM segToNat

/-- Model of `strings.TrimPrefix(ver, "go")` as applied in src/main.go:79: drop a
leading `go` if present, otherwise return the string unchanged. -/
def trimGo (s : String) : String :=
  match s.data with
  | 'g' :: 'o' :: rest => String.mk rest
  | _ => s

/-- Threshold `go150` of checkVendoringSupport (src/main.go:69); the source
ignores the parse error, which cannot occur here. -/
def go150 : List Nat := (parseVersion "1.5.0").getD []

/-- Threshold `go160` of checkVendoringSupport (src/main.go:70). -/
def go160 : List Nat := (parseVersion "1.6.0").getD []

/-- Threshold `go173` of checkVendoringSupport (src/main.go:71). -/
def go173 : List Nat := (parseVersion "1.7.3").getD []

/-- How the process aborts: an unrecovered Go `panic`, or an explicit
diagnostic line on stderr followed by `os.Exit`. -/
inductive AbortKind where
  | panicked (msg : String)
  | exited (stderrMsg : String) (code : Nat)
deriving DecidableEq

/-- Exit status of the process for each abort kind: the Go runtime terminates
a program with an unrecovered panic with status 2; `os.Exit(c)` with `c`. -/
def AbortKind.exitCode : AbortKind → Nat
  | .panicked _ => 2
  | .exited _ c => c

/-- First stderr line of each abort kind: the Go runtime prints
`panic: <msg>` (followed by a goroutine trace) for an unrecovered panic. -/
def AbortKind.stderrLine : AbortKind → String
  | .panicked m => "panic: " ++ m
  | .exited m _ => m

/-- Model of `strings.HasPrefix`, structural over the character lists. -/
def strStartsWith (s p : String) : Bool := List.isPrefixOf p.data s.data

/-- Error epilogue of `main` (src/main.go:151-154): a non-nil error returned
by a subcommand is printed to stderr as one line prefixed with the tool name
(`fmt.Fprintln(os.Stderr, "gom: ", err)` inserts a space between operands) and
the process exits with status 1. -/
def mainErrorAbort (err : String) : AbortKind :=
  .exited ("gom:  " ++ err) 1

/-- Function `goversion` (src/main.go:60-63): `gover.Version()` runs under a deferred
`recover`, so a panic inside the call (e.g. toolchain absent) makes
`goversion` return the zero value `""`. The outcome of the external call is
the parameter: `none` models a panic, `some s` a returned string `s`. -/
def goversion (goverResult : Option String) : String :=
  match goverResult with
  | none => ""
  | some s => s

/-- Function `checkVendoringSupport` (src/main.go:68-94). The outcome of the external
`gover.Version()` call and the environment are explicit parameters. The
`panic` on an unparsable non-empty version string (line 81) is returned as
`.error (.panicked _)`; it is raised during package `init`, before `main`
runs, so it never reaches the error epilogue of `main`. -/
def checkVendoringSupport (goverResult : Option String)
    (getenv : String → String) : Except AbortKind Bool :=
  let ver := goversion goverResult
  if ver = "" then .ok true
  else
    match parseVersion (trimGo ver) with
    | none =>
      .error (.panicked ("gover.Version() returned invalid semantic version: " ++ ver))
    | some goVer =>
      if lessThan goVer go150 then .ok false
      else if (equal goVer go150 || greaterThan goVer go150) && lessThan goVer go160 then
        .ok (getenv "GO15VENDOREXPERIMENT" == "1")
      else if (equal goVer go160 || greaterThan goVer go160) && lessThan goVer go173 then
        .ok (getenv "GO15VENDOREXPERIMENT" != "0")
      else .ok true

/-- The two globals set by `init` (src/main.go:44-45). -/
structure Config where
  isVendoringSupported : Bool
  vendorFolder : String
deriving DecidableEq

/-- The `vendorFolder` assignment of `init` (src/main.go:49-57) as a function
of the support flag and the environment: `vendor` in native mode, otherwise
the `GOM_VENDOR_NAME` override when non-empty (`len(...) > 0`), else
`_vendor`. -/
def vendorFolderFor (supported : Bool) (getenv : String → String) : String :=
  if supported then "vendor"
  else if 0 < (getenv "GOM_VENDOR_NAME").length then getenv "GOM_VENDOR_NAME"
  else "_vendor"

/-- Function `init` (src/main.go:47-58): computes `isVendoringSupported` via
`checkVendoringSupport` and derives `vendorFolder` from it and the
`GOM_VENDOR_NAME` environment variable. A panic inside
`checkVendoringSupport` propagates. -/
def init (goverResult : Option String) (getenv : String → String) :
    Except AbortKind Config :=
  match checkVendoringSupport goverResult getenv with
  | .error a => .error a
  | .ok supported =>
    .ok { isVendoringSupported := supported
          vendorFolder := vendorFolderFor supported getenv }

/-- Model of `filepath.Join` for two clean, separator-free relative components as used
by `vendorSrc`: slash concatenation, with empty components elided. -/
def filepathJoin (a b : String) : String :=
  if a = "" then b else if b = "" then a else a ++ "/" ++ b

/-- Function `vendorSrc` (src/main.go:96-102), with the global `isVendoringSupported`
passed explicitly. -/
def vendorSrc (isVendoringSupported : Bool) (vendor : String) : String :=
  if isVendoringSupported then vendor else filepathJoin vendor "src"

/-- The argument vector that the dispatch switch of `main` (src/main.go:120-150) hands
to `run` for the wrapped subcommands, as a function of the subcommand word
`flag.Arg(0)` and the remaining user arguments `flag.Args()[1:]`; `none` for
the subcommands that do not spawn a toolchain process this way. -/
def dispatchArgv (sub : String) (subArgs : List String) : Option (List String) :=
  if sub = "build" ∨ sub = "b" then some ("go" :: "build" :: subArgs)
  else if sub = "test" ∨ sub = "t" then some ("go" :: "test" :: subArgs)
  else if sub = "run" ∨ sub = "r" then some ("go" :: "run" :: subArgs)
  else if sub = "doc" ∨ sub = "d" then some ("godoc" :: subArgs)
  else if sub = "exec" ∨ sub = "e" then some subArgs
  else if sub = "env" ∨ sub = "tool" ∨ sub = "fmt" ∨ sub = "list" ∨ sub = "vet" then
    some ("go" :: sub :: subArgs)
  else none

/-- Outcome of running a child process for an Invocation. -/
inductive ChildOutcome where
  | exited (code : Nat)
  | spawnError (msg : String)
  | notFound (msg : String)
deriving DecidableEq

/-- Modelled from the spec: exit-status mapping of the Execution Environment
Builder function `run`, whose source file is not among the provided ones
(only `main` calls it). Per the spec, a non-zero exit of the child is not a
wrapper-level error and is propagated verbatim as the wrapper exit status,
while executable-not-found and spawn failures surface as wrapper errors,
which the error epilogue of `main` turns into exit status 1. -/
def wrapperExitCode : ChildOutcome → Nat
  | .exited c => c
  | .spawnError _ => 1
  | .notFound _ => 1

instance decEqExcept {ε α : Type} [DecidableEq ε] [DecidableEq α] :
    DecidableEq (Except ε α) := fun x y =>
  match x, y with
  | .ok a, .ok b =>
    if h : a = b then .isTrue (by rw [h]) else .isFalse (by simp [h])
  | .ok _, .error _ => .isFalse (by simp)
  | .error _, .ok _ => .isFalse (by simp)
  | .error a, .error b =>
    if h : a = b then .isTrue (by rw [h]) else .isFalse (by simp [h])

example : parseVersion "1.5.2" = some [1, 5, 2] := by decide
example : parseVersion (trimGo "go1.9.0") = some [1, 9, 0] := by decide
example : parseVersion "abc" = none := by decide
example : go150 = [1, 5, 0] := by decide
example : checkVendoringSupport (some "1.4.2") (fun _ => "") = .ok false := by decide
example : checkVendoringSupport (some "1.5.0") (fun _ => "") = .ok false := by decide
example : checkVendoringSupport (some "1.5.0") (fun _ => "1") = .ok true := by decide
example : checkVendoringSupport (some "1.6.1") (fun _ => "0") = .ok false := by decide
example : checkVendoringSupport (some "1.9.0") (fun _ => "0") = .ok true := by decide
example : checkVendoringSupport none (fun _ => "") = .ok true := by decide
example : checkVendoringSupport (some "go1.7.3") (fun _ => "0") = .ok true := by decide
example :
    checkVendoringSupport (some "abc") (fun _ => "") =
      .error (.panicked "gover.Version() returned invalid semantic version: abc") := by
  decide
example : vendorSrc false "_vendor" = "_vendor/src" := by decide
example : dispatchArgv "test" ["-run", "Foo"] = some ["go", "test", "-run", "Foo"] := by
  decide

theorem cmpSegments_nil_ne_gt (c : List Nat) : cmpSegments [] c ≠ .gt := by
  unfold cmpSegments
  split <;> simp

theorem cmpSegments_nil_swap (b : List Nat) :
    cmpSegments b [] = (cmpSegments [] b).swap := by
  induction b with
  | nil => decide
  | cons y ys ih =>
    by_cases hy : 0 < y
    · have hz : allZero (y :: ys) = false := by
        simp [allZero]
        omega
      simp [cmpSegments, hy, hz, Ordering.swap]
    · have hy0 : y = 0 := by omega
      subst hy0
      have hz : allZero (0 :: ys) = allZero ys := by simp [allZero]
      simp [cmpSegments, hy, hz, ih]

theorem cmpSegments_swap (a : List Nat) :
    ∀ b, cmpSegments a b = (cmpSegments b a).swap := by
  induction a with
  | nil =>
    intro b
    have h := cmpSegments_nil_swap b
    calc cmpSegments [] b = (cmpSegments [] b).swap.swap := by rw [Ordering.swap_swap]
      _ = (cmpSegments b []).swap := by rw [h]
  | cons x xs ih =>
    intro b
    cases b with
    | nil => exact cmpSegments_nil_swap (x :: xs)
    | cons y ys =>
      by_cases hxy : x < y
      · have hyx : ¬ y < x := by omega
        simp [cmpSegments, hxy, hyx, Ordering.swap]
      · by_cases hyx : y < x
        · simp [cmpSegments, hxy, hyx, Ordering.swap]
        · simp [cmpSegments, hxy, hyx, ih ys]

theorem cmpSegments_le_trans :
    ∀ a b c : List Nat, cmpSegments a b ≠ .gt → cmpSegments b c ≠ .gt →
      cmpSegments a c ≠ .gt := by
  intro a
  induction a with
  | nil => intro b c _ _; exact cmpSegments_nil_ne_gt c
  | cons x xs ih =>
    intro b c hab hbc
    cases b with
    | nil =>
      have hx : ¬ 0 < x := by
        intro hx
        simp [cmpSegments, hx] at hab
      have hx0 : x = 0 := by omega
      subst hx0
      have hxs : cmpSegments xs [] ≠ .gt := by
        simpa [cmpSegments, hx] using hab
      cases c with
      | nil => simpa [cmpSegments] using hxs
      | cons z zs =>
        by_cases hz : 0 < z
        · simp [cmpSegments, hz]
        · have hz0 : z = 0 := by omega
          subst hz0
          have := ih [] zs hxs (cmpSegments_nil_ne_gt zs)
          simpa [cmpSegments] using this
    | cons y ys =>
      cases c with
      | nil =>
        have hy : ¬ 0 < y := by
          intro hy
          simp [cmpSegments, hy] at hbc
        have hy0 : y = 0 := by omega
        subst hy0
        have hys : cmpSegments ys [] ≠ .gt := by
          simpa [cmpSegments, hy] using hbc
        have hx : ¬ 0 < x := by
          intro hx
          have hxy : ¬ x < 0 := by omega
          simp [cmpSegments, hxy, hx] at hab
        have hx0 : x = 0 := by omega
        subst hx0
        have hxs : cmpSegments xs ys ≠ .gt := by
          simpa [cmpSegments] using hab
        simpa [cmpSegments, hx] using ih ys [] hxs hys
      | cons z zs =>
        by_cases hxz : x < z
        · simp [cmpSegments, hxz]
        · by_cases hxy : x < y
          · by_cases hyz : y < z
            · omega
            · by_cases hzy : z < y
              · simp [cmpSegments, hyz, hzy] at hbc
              · omega
          · by_cases hyx : y < x
            · simp [cmpSegments, hxy, hyx] at hab
            · by_cases hyz : y < z
              · omega
              · by_cases hzy : z < y
                · simp [cmpSegments, hyz, hzy] at hbc
                · have hxeq : x = y := by omega
                  have hyeq : y = z := by omega
                  subst hxeq
                  subst hyeq
                  have h1 : cmpSegments xs ys ≠ .gt := by
                    simpa [cmpSegments] using hab
                  have h2 : cmpSegments ys zs ≠ .gt := by
                    simpa [cmpSegments] using hbc
                  have hzx : ¬ x < x := by omega
                  simp only [cmpSegments, hzx, if_false]
                  exact ih ys zs h1 h2

theorem cmpSegments_ne_lt_iff (a b : List Nat) :
    cmpSegments a b ≠ .lt ↔ cmpSegments b a ≠ .gt := by
  rw [cmpSegments_swap a b]
  cases cmpSegments b a <;> simp [Ordering.swap]

theorem parse_ne_empty {s : String} {v : List Nat}
    (hp : parseVersion (trimGo s) = some v) : s ≠ "" := by
  intro h
  subst h
  rw [show parseVersion (trimGo "") = none by rfl] at hp
  exact Option.noConfusion hp

theorem checkVendoringSupport_parsed (s : String) (getenv : String → String)
    (v : List Nat) (hs : s ≠ "") (hp : parseVersion (trimGo s) = some v) :
    checkVendoringSupport (some s) getenv =
      .ok (if cmpSegments v go150 = .lt then false
           else if cmpSegments v go160 = .lt then getenv "GO15VENDOREXPERIMENT" == "1"
           else if cmpSegments v go173 = .lt then getenv "GO15VENDOREXPERIMENT" != "0"
           else true) := by
  simp only [checkVendoringSupport, goversion]
  rw [if_neg hs, hp]
  cases h1 : cmpSegments v go150 <;> cases h2 : cmpSegments v go160 <;>
    cases h3 : cmpSegments v go173 <;>
      simp [lessThan, equal, greaterThan, h1, h2, h3]

theorem go150_le_go160 : cmpSegments go150 go160 ≠ .gt := by decide

theorem go160_le_go173 : cmpSegments go160 go173 ≠ .gt := by decide

/-- Claim C1: for every toolchain version v with 1.5.0 <= v < 1.6.0,
checkVendoringSupport returns true if and only if GO15VENDOREXPERIMENT equals
exactly "1"; any other value, including unset (the empty string), yields
false. -/
theorem claim1_optin_band (getenv : String → String) (s : String) (v : List Nat)
    (hp : parseVersion (trimGo s) = some v)
    (h1 : cmpSegments v go150 ≠ .lt)
    (h2 : cmpSegments v go160 = .lt) :
    checkVendoringSupport (some s) getenv =
        .ok (getenv "GO15VENDOREXPERIMENT" == "1") ∧
      (checkVendoringSupport (some s) getenv = .ok true ↔
        getenv "GO15VENDOREXPERIMENT" = "1") := by
  rw [checkVendoringSupport_parsed s getenv v (parse_ne_empty hp) hp]
  rw [if_neg h1, if_pos h2]
  simp [beq_iff_eq]

/-- Witness for C1 at version "1.5.2" with the flag unset: the resolver
returns false. -/
theorem claim1_optin_band_witness :
    checkVendoringSupport (some "1.5.2") (fun _ => "") =
        .ok ((fun _ : String => "") "GO15VENDOREXPERIMENT" == "1") ∧
      (checkVendoringSupport (some "1.5.2") (fun _ => "") = .ok true ↔
        (fun _ : String => "") "GO15VENDOREXPERIMENT" = "1") :=
  claim1_optin_band (fun _ => "") "1.5.2" [1, 5, 2] (by decide) (by decide)
    (by decide)

/-- Claim C2: for every toolchain version v with v >= 1.6.0,
checkVendoringSupport returns true, except that for 1.6.0 <= v < 1.7.3 it is
false exactly when GO15VENDOREXPERIMENT is explicitly "0"; for v >= 1.7.3 it
is true regardless of the environment. -/
theorem claim2_optout_band (getenv : String → String) (s : String) (v : List Nat)
    (hp : parseVersion (trimGo s) = some v)
    (h2 : cmpSegments v go160 ≠ .lt) :
    checkVendoringSupport (some s) getenv = .ok true ↔
      ¬ (cmpSegments v go173 = .lt ∧ getenv "GO15VENDOREXPERIMENT" = "0") := by
  have h1 : cmpSegments v go150 ≠ .lt := by
    rw [cmpSegments_ne_lt_iff]
    exact cmpSegments_le_trans go150 go160 v go150_le_go160
      ((cmpSegments_ne_lt_iff v go160).mp h2)
  rw [checkVendoringSupport_parsed s getenv v (parse_ne_empty hp) hp]
  rw [if_neg h1, if_neg h2]
  by_cases h3 : cmpSegments v go173 = .lt
  · rw [if_pos h3]
    simp [h3, bne_iff_ne]
  · rw [if_neg h3]
    simp [h3]

/-- Witness for C2 at version "1.9.0" with the flag set to the disabling
value "0": the resolver still returns true. -/
theorem claim2_optout_band_witness :
    checkVendoringSupport (some "1.9.0") (fun _ => "0") = .ok true ↔
      ¬ (cmpSegments [1, 9, 0] go173 = .lt ∧
        (fun _ : String => "0") "GO15VENDOREXPERIMENT" = "0") :=
  claim2_optout_band (fun _ => "0") "1.9.0" [1, 9, 0] (by decide) (by decide)

/-- Claim C3: for every toolchain version below 1.5.0, checkVendoringSupport
returns false, and with GOM_VENDOR_NAME unset init resolves the folder to
"_vendor", whose source subpath under vendorSrc is exactly "_vendor/src". -/
theorem claim3_legacy_band (getenv : String → String) (s : String) (v : List Nat)
    (hp : parseVersion (trimGo s) = some v)
    (h1 : cmpSegments v go150 = .lt)
    (hunset : getenv "GOM_VENDOR_NAME" = "") :
    checkVendoringSupport (some s) getenv = .ok false ∧
      init (some s) getenv = .ok ⟨false, "_vendor"⟩ ∧
      vendorSrc false "_vendor" = "_vendor/src" := by
  have hc : checkVendoringSupport (some s) getenv = .ok false := by
    rw [checkVendoringSupport_parsed s getenv v (parse_ne_empty hp) hp]
    rw [if_pos h1]
  refine ⟨hc, ?_, by decide⟩
  simp [init, hc, vendorFolderFor, hunset]

/-- Witness for C3 at version "1.4.2" with an empty environment. -/
theorem claim3_legacy_band_witness :
    checkVendoringSupport (some "1.4.2") (fun _ => "") = .ok false ∧
      init (some "1.4.2") (fun _ => "") = .ok ⟨false, "_vendor"⟩ ∧
      vendorSrc false "_vendor" = "_vendor/src" :=
  claim3_legacy_band (fun _ => "") "1.4.2" [1, 4, 2] (by decide) (by decide)
    (by decide)

/-- Claim C4: when obtaining the toolchain version fails (gover.Version
panics, modelled as `none`, or returns the empty string), goversion yields ""
and checkVendoringSupport returns true without aborting, for every
environment. -/
theorem claim4_unknown_version_optimistic (getenv : String → String) :
    goversion none = "" ∧
      checkVendoringSupport none getenv = .ok true ∧
      checkVendoringSupport (some "") getenv = .ok true :=
  ⟨rfl, rfl, rfl⟩

/-- Claim C5 counterexample: at the unparsable non-empty version "abc" the
resolver aborts via a Go panic, whose exit status is 2 (not 1) and whose
stderr line is not prefixed with the tool name "gom". -/
theorem claim5_counterexample :
    checkVendoringSupport (some "abc") (fun _ => "") =
        .error (.panicked "gover.Version() returned invalid semantic version: abc") ∧
      AbortKind.exitCode
          (.panicked "gover.Version() returned invalid semantic version: abc") = 2 ∧
      strStartsWith
          (AbortKind.stderrLine
            (.panicked "gover.Version() returned invalid semantic version: abc"))
          "gom" = false :=
  ⟨by decide, rfl, by decide⟩

/-- Claim C5 (amended): for every non-empty version string that fails to
parse, resolution aborts the process via an unrecovered panic whose message
echoes the offending string; the abort is the runtime panic (exit status 2,
a `panic: `-prefixed trace), not the `gom: `-prefixed status-1 epilogue
of `main`. -/
theorem claim5_amended (getenv : String → String) (s : String)
    (hs : s ≠ "") (hp : parseVersion (trimGo s) = none) :
    checkVendoringSupport (some s) getenv =
        .error (.panicked ("gover.Version() returned invalid semantic version: " ++ s)) ∧
      AbortKind.exitCode
          (.panicked ("gover.Version() returned invalid semantic version: " ++ s)) = 2 := by
  refine ⟨?_, rfl⟩
  simp only [checkVendoringSupport, goversion]
  rw [if_neg hs, hp]

/-- Witness for the amended C5 at the unparsable version "go.x". -/
theorem claim5_amended_witness :
    checkVendoringSupport (some "go.x") (fun _ => "") =
        .error (.panicked ("gover.Version() returned invalid semantic version: " ++ "go.x")) ∧
      AbortKind.exitCode
          (.panicked ("gover.Version() returned invalid semantic version: " ++ "go.x")) = 2 :=
  claim5_amended (fun _ => "") "go.x" (by decide) (by decide)

/-- Claim C6: directory resolution is a pure function of the support flag and
the override: with support=false and GOM_VENDOR_NAME="libs" the source
subpath is exactly "libs/src"; with support=true the override (any
environment) is ignored and the path is "vendor" with no "/src" suffix. -/
theorem claim6_directory_pure (getenv getenv' : String → String)
    (hlibs : getenv "GOM_VENDOR_NAME" = "libs") :
    vendorSrc false (vendorFolderFor false getenv) = "libs/src" ∧
      vendorSrc true (vendorFolderFor true getenv') = "vendor" := by
  constructor
  · have h : vendorFolderFor false getenv = "libs" := by
      simp only [vendorFolderFor, hlibs]
      decide
    rw [h]
    decide
  · rfl

/-- Witness for C6 with GOM_VENDOR_NAME set to "libs" in the non-native
branch and to "ignored" in the native branch. -/
theorem claim6_directory_pure_witness :
    vendorSrc false (vendorFolderFor false (fun _ => "libs")) = "libs/src" ∧
      vendorSrc true (vendorFolderFor true (fun _ => "ignored")) = "vendor" :=
  claim6_directory_pure (fun _ => "libs") (fun _ => "ignored") (by decide)

/-- Claim C7: the dispatch switch builds the invocation for subcommand `test`
as the toolchain program "go" first, the subcommand word second, and the user
arguments appended unchanged and in order; in particular for ["-run", "Foo"]
it yields ["go", "test", "-run", "Foo"]. -/
theorem claim7_invocation_order (subArgs : List String) :
    dispatchArgv "test" subArgs = some ("go" :: "test" :: subArgs) ∧
      dispatchArgv "test" ["-run", "Foo"] = some ["go", "test", "-run", "Foo"] :=
  ⟨rfl, rfl⟩

/-- Claim C8: a child exit with a non-zero status is not a wrapper-level
error: the wrapper exit code for a child that exited with status 2 is 2,
not 1, and in general the child exit code is propagated verbatim. -/
theorem claim8_exit_propagation :
    wrapperExitCode (.exited 2) = 2 ∧ wrapperExitCode (.exited 2) ≠ 1 ∧
      ∀ c, wrapperExitCode (.exited c) = c :=
  ⟨rfl, by decide, fun _ => rfl⟩

/-- Claim C10: checkVendoringSupport is monotone in the toolchain version for
any fixed environment: if it returns true for a parseable version v, it
returns true for every parseable version w with v <= w. -/
theorem claim10_monotone (getenv : String → String) (s t : String)
    (v w : List Nat)
    (hp : parseVersion (trimGo s) = some v)
    (hq : parseVersion (trimGo t) = some w)
    (hvw : cmpSegments v w ≠ .gt)
    (ht : checkVendoringSupport (some s) getenv = .ok true) :
    checkVendoringSupport (some t) getenv = .ok true := by
  rw [checkVendoringSupport_parsed s getenv v (parse_ne_empty hp) hp] at ht
  rw [checkVendoringSupport_parsed t getenv w (parse_ne_empty hq) hq]
  simp only [Except.ok.injEq] at ht ⊢
  by_cases h1 : cmpSegments v go150 = .lt
  · rw [if_pos h1] at ht
    exact absurd ht (by decide)
  · have hw1 : cmpSegments w go150 ≠ .lt := by
      rw [cmpSegments_ne_lt_iff]
      exact cmpSegments_le_trans go150 v w ((cmpSegments_ne_lt_iff v go150).mp h1) hvw
    rw [if_neg h1] at ht
    rw [if_neg hw1]
    by_cases h2 : cmpSegments v go160 = .lt
    · rw [if_pos h2] at ht
      have hE : getenv "GO15VENDOREXPERIMENT" = "1" := by simpa using ht
      by_cases hw2 : cmpSegments w go160 = .lt
      · rw [if_pos hw2]
        exact ht
      · rw [if_neg hw2]
        by_cases hw3 : cmpSegments w go173 = .lt
        · rw [if_pos hw3, hE]
          decide
        · rw [if_neg hw3]
    · have hw2 : cmpSegments w go160 ≠ .lt := by
        rw [cmpSegments_ne_lt_iff]
        exact cmpSegments_le_trans go160 v w ((cmpSegments_ne_lt_iff v go160).mp h2) hvw
      rw [if_neg h2] at ht
      rw [if_neg hw2]
      by_cases h3 : cmpSegments v go173 = .lt
      · rw [if_pos h3] at ht
        by_cases hw3 : cmpSegments w go173 = .lt
        · rw [if_pos hw3]
          exact ht
        · rw [if_neg hw3]
      · have hw3 : cmpSegments w go173 ≠ .lt := by
          rw [cmpSegments_ne_lt_iff]
          exact cmpSegments_le_trans go173 v w ((cmpSegments_ne_lt_iff v go173).mp h3) hvw
        rw [if_neg hw3]

/-- Witness for C10: true at "1.5.0" with the flag "1" lifts to "1.9.0". -/
theorem claim10_monotone_witness :
    checkVendoringSupport (some "1.9.0") (fun _ => "1") = .ok true :=
  claim10_monotone (fun _ => "1") "1.5.0" "1.9.0" [1, 5, 0] [1, 9, 0]
    (by decide) (by decide) (by decide) (by decide)
